import Mathlib

/-!
Verification of the TTS configuration validation and voice-canonicalization
logic of `app/edge_tts/data_classes.py` (class `TTSConfig`), as a shallow
embedding in Lean.

The embedding mirrors the Python source:

* Python values that can reach the four configuration attributes are
  modelled by `PyVal` (the module only ever distinguishes strings from
  non-strings).
* The three `re.match` pattern tests are embedded as executable string
  predicates.  For each fixed pattern the backtracking search of the Python
  engine is deterministic, so the predicates are written as direct
  structural decompositions; each definition's doc comment records the
  pattern it embeds and why the decomposition is faithful, including
  Python's rule that `$` also matches just before a single newline at the
  end of the string.  Python's `\d` is modelled as the ASCII digits 0-9
  (Python additionally accepts other Unicode decimal digits; nothing below
  depends on those).
* Exceptions are modelled by `TTSError`; methods that can raise return
  `Except` or pair their result with an `Option TTSError`.
-/

namespace EdgeTTS

/-- Python runtime values, as far as this module distinguishes them: the
validator only ever asks `isinstance(value, str)`, so strings are modelled
precisely and the non-string values reachable in practice (numbers,
booleans, `None`) are carried as opaque tags. -/
inductive PyVal where
  | str (s : String)
  | int (n : Int)
  | bool (b : Bool)
  | none
deriving DecidableEq, Repr

/-- Whether a Python value is a string, i.e. `isinstance(value, str)`. -/
def PyVal.isStr : PyVal → Bool
  | PyVal.str _ => true
  | _ => false

/-- The exceptions that the code of `data_classes.py` can raise.
`typeMismatch` is the `TypeError(f"{param_name} must be str")` of line 31;
`patternMismatch` is the `ValueError(f"Invalid {param_name} '{param_value}'.")`
of line 33, carrying the parameter name and the offending value;
`attributeError` is the `AttributeError` Python raises when an attribute
lookup on the object fails; `reMatchTypeError` is the `TypeError` raised by
`re.match` itself when handed a non-string subject. -/
inductive TTSError where
  | typeMismatch (param_name : String)
  | patternMismatch (param_name : String) (value : String)
  | attributeError (attr_name : String)
  | reMatchTypeError
deriving DecidableEq, Repr

/-- Python `re` semantics of a pattern ending in `$` (no MULTILINE flag):
`$` matches at the end of the string or just before a single newline that
ends the string, so the characters consumed by the pattern are the whole
string, or the whole string minus one trailing newline. -/
def dollarCore (cs : List Char) : List Char :=
  if cs.getLast? = some '\n' then cs.dropLast else cs

/-- Match of the regex tail `(.+Neural)$` against the remainder of a voice
string, returning the capture of the third group.  `.` matches anything but
a newline.  The group must extend exactly to the `$` anchor, so the grabbed
text is forced to be the whole remainder up to `$` (greediness offers no
choice): the remainder, minus an optional single trailing newline, must end
in the literal `Neural`, be at least seven characters long (`.+` needs at
least one character) and be newline-free before the `Neural` suffix. -/
def neuralName (cs : List Char) : Option (List Char) :=
  let core := dollarCore cs
  if "Neural".data.isSuffixOf core ∧ 7 ≤ core.length ∧
      (core.take (core.length - 6)).contains '\n' = false then
    some core
  else
    Option.none

/-- Python `re.match` of the short-form voice pattern
`^([a-z]{2,})-([A-Z]{2,})-(.+Neural)$` (data_classes.py line 52), returning
the three captured groups.  The repetitions are deterministic: each run of
letters must be followed by a literal hyphen, which belongs to neither
character class, so the engine's backtracking can never produce a different
split — group 1 is exactly the maximal leading run of ASCII lowercase
letters, group 2 the maximal following run of ASCII uppercase letters, and
group 3 is handled by `neuralName`. -/
def shortFormGroups (cs : List Char) : Option (List Char × List Char × List Char) :=
  let lang := cs.takeWhile Char.isLower
  let rest1 := cs.dropWhile Char.isLower
  if lang.length < 2 then Option.none
  else
    match rest1 with
    | '-' :: rest2 =>
      let region := rest2.takeWhile Char.isUpper
      let rest3 := rest2.dropWhile Char.isUpper
      if region.length < 2 then Option.none
      else
        match rest3 with
        | '-' :: rest4 => (neuralName rest4).map (fun name => (lang, region, name))
        | _ => Option.none
    | _ => Option.none

/-- The fixed sentence of the canonical voice form (data_classes.py line 60). -/
def msVoiceHeader : String := "Microsoft Server Speech Text to Speech Voice"

/-- Reassembly of the canonical voice string from the three captured parts:
the concatenation on line 60 of data_classes.py,
`"Microsoft Server Speech Text to Speech Voice" + f" ({lang}-{region}, {name})"`. -/
def assembleVoice (lang region name : List Char) : List Char :=
  msVoiceHeader.data ++ " (".data ++ lang ++ "-".data ++ region ++ ", ".data ++ name ++ ")".data

/-- The voice-canonicalization step of `TTSConfig.__post_init__`
(data_classes.py lines 52-60): a voice matching the short-form pattern is
rewritten into the canonical sentence; when the captured name contains a
hyphen (`name.find("-") != -1`), the part of the name before its first
hyphen is appended to the region (`region + "-" + name[:idx]`) and the part
after it becomes the name (`name[idx + 1:]`); any voice string that does
not match the pattern is left untouched. -/
def canonVoice (cs : List Char) : List Char :=
  match shortFormGroups cs with
  | Option.none => cs
  | some (lang, region, name) =>
    if name.contains '-' then
      let pre := name.takeWhile (fun c => c ≠ '-')
      let rest := (name.dropWhile (fun c => c ≠ '-')).drop 1
      assembleVoice lang (region ++ '-' :: pre) rest
    else
      assembleVoice lang region name

/-- String-level wrapper of `canonVoice`. -/
def canonicalizeVoice (s : String) : String := ⟨canonVoice s.data⟩

/-- Python `re.match` of `^[+-]\d+%$` and `^[+-]\d+Hz$` (data_classes.py
lines 64-66), generalized over the literal suffix (`%` or `Hz`): a sign,
one or more digits, the suffix, and the `$` anchor.  The decomposition is
end-anchored, so the consumed text (the string minus an optional single
trailing newline, see `dollarCore`) must be exactly
sign-digits-suffix; greediness of `\d+` offers no alternative because the
suffix characters are not digits. -/
def signedNumberMatches (suffix : List Char) (cs : List Char) : Bool :=
  match dollarCore cs with
  | c :: rest =>
    (c == '+' || c == '-') && suffix.isSuffixOf rest &&
      decide (suffix.length < rest.length) &&
      (rest.take (rest.length - suffix.length)).all Char.isDigit
  | [] => false

/-- The `re.match` acceptance test of the rate pattern `^[+-]\d+%$`
(data_classes.py line 64). -/
def ratePatternMatches (cs : List Char) : Bool := signedNumberMatches "%".data cs

/-- The `re.match` acceptance test of the volume pattern `^[+-]\d+%$`
(data_classes.py line 65). -/
def volumePatternMatches (cs : List Char) : Bool := signedNumberMatches "%".data cs

/-- The `re.match` acceptance test of the pitch pattern `^[+-]\d+Hz$`
(data_classes.py line 66). -/
def pitchPatternMatches (cs : List Char) : Bool := signedNumberMatches "Hz".data cs

/-- Python `re.match` of
`^Microsoft Server Speech Text to Speech Voice \(.+,.+\)$`
(data_classes.py line 63): the fixed sentence, a space and an opening
parenthesis, then a nonempty newline-free segment, a comma, another
nonempty newline-free segment, and a closing parenthesis sitting at the
`$` anchor.  The closing parenthesis is forced to be the last consumed
character, and a comma must occur strictly inside the enclosed text. -/
def voicePatternMatches (cs : List Char) : Bool :=
  let core := dollarCore cs
  let hd := (msVoiceHeader ++ " (").data
  hd.isPrefixOf core && !(core.contains '\n') &&
    (let mid := core.drop hd.length
     (mid.getLast? == some ')') && ((mid.dropLast.drop 1).dropLast.contains ','))

/-- The three regex pattern literals passed to the validator by
`TTSConfig.__post_init__` (data_classes.py lines 63-66), embedded as their
`re.match` acceptance tests. -/
inductive FieldPat where
  | voiceFull
  | signedPercent
  | signedHz
deriving DecidableEq, Repr

/-- Acceptance test of each pattern literal. -/
def FieldPat.accepts : FieldPat → List Char → Bool
  | FieldPat.voiceFull, cs => voicePatternMatches cs
  | FieldPat.signedPercent, cs => ratePatternMatches cs
  | FieldPat.signedHz, cs => pitchPatternMatches cs

/-- `TTSConfig.validate_string_param` (data_classes.py lines 17-34): a
non-string argument raises `TypeError(f"{param_name} must be str")`; a
string rejected by `re.match` raises
`ValueError(f"Invalid {param_name} '{param_value}'.")`; otherwise the value
is returned unchanged. -/
def validate_string_param (param_name : String) (param_value : PyVal) (pat : FieldPat) :
    Except TTSError String :=
  match param_value with
  | PyVal.str s =>
    if pat.accepts s.data then Except.ok s
    else Except.error (TTSError.patternMismatch param_name s)
  | _ => Except.error (TTSError.typeMismatch param_name)

/-- The `TTSConfig` object: the four attributes assigned by `__init__`
(data_classes.py lines 36-40).  As attributes of a plain Python object they
can hold values of any type. -/
structure TTSConfig where
  voice : PyVal
  rate : PyVal
  volume : PyVal
  pitch : PyVal
deriving DecidableEq, Repr

/-- `TTSConfig.__init__` (data_classes.py lines 36-40): assigns the four
arguments to the four attributes, with no validation and no other action. -/
def TTSConfig.init (voice rate volume pitch : PyVal) : TTSConfig :=
  { voice := voice, rate := rate, volume := volume, pitch := pitch }

/-- `TTSConfig.__post_init__` (data_classes.py lines 42-66), exactly as
written.  It first rewrites `self.voice` through the canonicalization step
of lines 52-60 (when the voice is not a string, `re.match` on line 52
raises a `TypeError` instead), and then calls
`self.validate_string_pattern(...)` on line 63 — a method that does not
exist on the class (the defined method is `validate_string_param`), so the
attribute lookup raises `AttributeError` before any field is validated.
The result pairs the object state at the moment the exception propagates
(the in-place voice mutation of line 60 has already happened) with the
raised error. -/
def TTSConfig.post_init (c : TTSConfig) : TTSConfig × Option TTSError :=
  match c.voice with
  | PyVal.str v =>
    ({ c with voice := PyVal.str (canonicalizeVoice v) },
      some (TTSError.attributeError "validate_string_pattern"))
  | _ => (c, some TTSError.reMatchTypeError)

/-- Whether `TTSConfig` is declared as a dataclass.  In the source it is a
plain class — there is no `dataclass` decorator on line 7 — so Python never
invokes `__post_init__` automatically. -/
def TTSConfig.isDataclass : Bool := false

/-- Construction of a `TTSConfig` by calling the class, following Python
object-construction semantics: `__init__` runs; `__post_init__` would run
afterwards only under the dataclass protocol, which this plain class does
not use. -/
def constructTTSConfig (voice rate volume pitch : PyVal) : Except TTSError TTSConfig :=
  let obj := TTSConfig.init voice rate volume pitch
  if TTSConfig.isDataclass then
    match obj.post_init with
    | (_, some e) => Except.error e
    | (obj2, Option.none) => Except.ok obj2
  else
    Except.ok obj

/-- Transcribed from the spec wording of the field-shape claims: the ENTIRE
string is a sign character, then one or more ASCII digits, then the given
literal suffix — with no allowance for a trailing newline.  This is the
spec-side definition used to compare the claimed acceptance condition with
the embedded `re.match` behavior. -/
def specEntireSigned (suffix : List Char) (cs : List Char) : Bool :=
  match cs with
  | c :: rest =>
    (c == '+' || c == '-') && decide (suffix.length < rest.length) &&
      (rest.take (rest.length - suffix.length)).all Char.isDigit &&
      (rest.drop (rest.length - suffix.length) == suffix)
  | [] => false

/-!
Helper lemmas shared by the claim theorems below.
-/

/-- Splitting a list at its first hyphen: when a hyphen occurs, the list is
the hyphen-free part before the first hyphen, the hyphen, and the rest. -/
theorem split_at_first_hyphen (name : List Char) (h : name.contains '-' = true) :
    name = name.takeWhile (fun c => c ≠ '-') ++
      '-' :: (name.dropWhile (fun c => c ≠ '-')).drop 1 := by
  induction name with
  | nil => simp at h
  | cons x xs ih =>
    by_cases hx : x = '-'
    · subst hx
      simp
    · have hxs : xs.contains '-' = true := by
        have hm : '-' ∈ x :: xs := by simpa using h
        rcases List.mem_cons.mp hm with h1 | h2
        · exact absurd h1.symm hx
        · simpa using h2
      rw [List.takeWhile_cons_of_pos (by simpa using hx),
        List.dropWhile_cons_of_pos (by simpa using hx), List.cons_append]
      exact congrArg (x :: ·) (ih hxs)

/-- The part of a list before its first hyphen contains no hyphen. -/
theorem takeWhile_no_hyphen (name : List Char) :
    (name.takeWhile (fun c => c ≠ '-')).contains '-' = false := by
  cases hb : (name.takeWhile (fun c => c ≠ '-')).contains '-' with
  | false => rfl
  | true =>
    exfalso
    have hm : '-' ∈ name.takeWhile (fun c => c ≠ '-') := by simpa using hb
    have hp := List.mem_takeWhile_imp hm
    simp at hp

/-- The canonical sentence starts with the uppercase letter M, so the
maximal leading run of lowercase letters of any reassembled canonical voice
is empty and the short-form pattern cannot match it. -/
theorem shortFormGroups_assemble (lang region name : List Char) :
    shortFormGroups (assembleVoice lang region name) = Option.none := rfl

/-- Applying the canonicalization step to any reassembled canonical voice
leaves it unchanged. -/
theorem canonVoice_assemble (lang region name : List Char) :
    canonVoice (assembleVoice lang region name) = assembleVoice lang region name := by
  unfold canonVoice
  rw [shortFormGroups_assemble]

/-- On a short-form match, `canonVoice` produces a reassembled canonical
voice (in each of the two name shapes). -/
theorem canonVoice_of_groups (cs lang region name : List Char)
    (h : shortFormGroups cs = some (lang, region, name)) :
    canonVoice cs = if name.contains '-' then
        assembleVoice lang (region ++ '-' :: name.takeWhile (fun c => c ≠ '-'))
          ((name.dropWhile (fun c => c ≠ '-')).drop 1)
      else assembleVoice lang region name := by
  simp only [canonVoice, h]

/-!
Claim theorems.
-/

/-- C1 (failing input for the claimed invariant): constructing a TTSConfig
from four strings that all violate their patterns succeeds — the plain
class runs only `__init__` — and the resulting object carries the invalid
values in all four fields, so successful construction does not guarantee
syntactic validity of any field. -/
theorem c1_invalid_fields_construct_ok :
    constructTTSConfig (PyVal.str "bad") (PyVal.str "10%") (PyVal.str "loud")
        (PyVal.str "high") =
      Except.ok { voice := PyVal.str "bad", rate := PyVal.str "10%",
                  volume := PyVal.str "loud", pitch := PyVal.str "high" } ∧
    voicePatternMatches "bad".data = false ∧ ratePatternMatches "10%".data = false ∧
    volumePatternMatches "loud".data = false ∧ pitchPatternMatches "high".data = false :=
  ⟨rfl, rfl, rfl, rfl, rfl⟩

/-- C2 (failing input for the claimed fail-fast ordering): invoking
`__post_init__` on a configuration whose voice and rate are both invalid
raises `AttributeError` for the misnamed method `validate_string_pattern` —
not an error naming the voice field — because the attribute lookup fails
before any field validation can run. -/
theorem c2_attribute_error_preempts_validation :
    (TTSConfig.init (PyVal.str "not a voice") (PyVal.str "10%") (PyVal.str "+0%")
        (PyVal.str "+0Hz")).post_init =
      ({ voice := PyVal.str "not a voice", rate := PyVal.str "10%",
         volume := PyVal.str "+0%", pitch := PyVal.str "+0Hz" },
        some (TTSError.attributeError "validate_string_pattern")) ∧
    (∀ n v, TTSError.attributeError "validate_string_pattern" ≠
      TTSError.patternMismatch n v) := by
  refine ⟨rfl, fun n v h => ?_⟩
  cases h

/-- C3: calling the TTSConfig constructor with arguments of any type always
succeeds and stores the four argument values verbatim; no canonicalization
and no validation happens during construction — a short-form voice is
stored unrewritten even though the canonicalizer would change it, and
non-string values are stored even though the validator would reject them. -/
theorem c3_plain_construction_stores_arguments :
    (∀ v r vo p : PyVal, constructTTSConfig v r vo p =
      Except.ok { voice := v, rate := r, volume := vo, pitch := p }) ∧
    constructTTSConfig (PyVal.int 3) (PyVal.bool true) PyVal.none (PyVal.str "") =
      Except.ok { voice := PyVal.int 3, rate := PyVal.bool true,
                  volume := PyVal.none, pitch := PyVal.str "" } ∧
    constructTTSConfig (PyVal.str "cy-GB-NiaNeural") (PyVal.str "+0%") (PyVal.str "+0%")
        (PyVal.str "+0Hz") =
      Except.ok { voice := PyVal.str "cy-GB-NiaNeural", rate := PyVal.str "+0%",
                  volume := PyVal.str "+0%", pitch := PyVal.str "+0Hz" } ∧
    canonicalizeVoice "cy-GB-NiaNeural" ≠ "cy-GB-NiaNeural" := by
  refine ⟨fun v r vo p => rfl, rfl, rfl, ?_⟩
  decide

/-- C4: for every parameter name and pattern, a non-string value produces
the type-mismatch error carrying the parameter name; a string value that
fails the pattern produces the format-mismatch error carrying both the
parameter name and the offending value; and the two error kinds are never
equal, so the caller can distinguish them. -/
theorem c4_two_error_kinds (param_name : String) (pat : FieldPat) :
    (∀ v : PyVal, v.isStr = false →
      validate_string_param param_name v pat =
        Except.error (TTSError.typeMismatch param_name)) ∧
    (∀ s : String, pat.accepts s.data = false →
      validate_string_param param_name (PyVal.str s) pat =
        Except.error (TTSError.patternMismatch param_name s)) ∧
    (∀ s : String, TTSError.typeMismatch param_name ≠
      TTSError.patternMismatch param_name s) := by
  refine ⟨?_, ?_, ?_⟩
  · intro v hv
    cases v with
    | str s => simp [PyVal.isStr] at hv
    | int n => rfl
    | bool b => rfl
    | none => rfl
  · intro s hs
    simp [validate_string_param, hs]
  · intro s h
    cases h

/-- Witness for C4 at the pitch field: the numeric input 5 yields the
type-mismatch error, the string "5Hz" yields the format-mismatch error
carrying the value, and the two errors are distinct. -/
theorem c4_two_error_kinds_witness :
    validate_string_param "pitch" (PyVal.int 5) FieldPat.signedHz =
      Except.error (TTSError.typeMismatch "pitch") ∧
    validate_string_param "pitch" (PyVal.str "5Hz") FieldPat.signedHz =
      Except.error (TTSError.patternMismatch "pitch" "5Hz") ∧
    TTSError.typeMismatch "pitch" ≠ TTSError.patternMismatch "pitch" "5Hz" :=
  ⟨(c4_two_error_kinds "pitch" FieldPat.signedHz).1 (PyVal.int 5) rfl,
   (c4_two_error_kinds "pitch" FieldPat.signedHz).2.1 "5Hz" rfl,
   (c4_two_error_kinds "pitch" FieldPat.signedHz).2.2 "5Hz"⟩

/-- C6: on a short-form match whose captured name contains a hyphen,
canonicalization appends the part of the name before its first hyphen to
the region (separated by a hyphen) and keeps the part after that hyphen as
the new name; in particular the short form "xx-YY-Sub-PartNeural"
canonicalizes to
"Microsoft Server Speech Text to Speech Voice (xx-YY-Sub, PartNeural)". -/
theorem c6_embedded_hyphen_extends_region :
    (∀ cs lang region name, shortFormGroups cs = some (lang, region, name) →
      name.contains '-' = true →
      ∃ pre post, name = pre ++ '-' :: post ∧ pre.contains '-' = false ∧
        canonVoice cs = assembleVoice lang (region ++ '-' :: pre) post) ∧
    canonicalizeVoice "xx-YY-Sub-PartNeural" =
      "Microsoft Server Speech Text to Speech Voice (xx-YY-Sub, PartNeural)" := by
  constructor
  · intro cs lang region name h hc
    refine ⟨name.takeWhile (fun c => c ≠ '-'),
      (name.dropWhile (fun c => c ≠ '-')).drop 1,
      split_at_first_hyphen name hc, takeWhile_no_hyphen name, ?_⟩
    rw [canonVoice_of_groups cs lang region name h, if_pos hc]
  · rfl

/-- Witness for C6, instantiating the general statement at the short form
"xx-YY-Sub-PartNeural". -/
theorem c6_embedded_hyphen_extends_region_witness :
    ∃ pre post, "Sub-PartNeural".data = pre ++ '-' :: post ∧
      pre.contains '-' = false ∧
      canonVoice "xx-YY-Sub-PartNeural".data =
        assembleVoice "xx".data ("YY".data ++ '-' :: pre) post :=
  c6_embedded_hyphen_extends_region.1 "xx-YY-Sub-PartNeural".data "xx".data "YY".data
    "Sub-PartNeural".data rfl rfl

/-- C7: canonicalization of "cy-GB-NiaNeural" and "fil-PH-AngeloNeural"
yields the two expected canonical sentences, and in general a short-form
match whose captured name contains no hyphen keeps the region untouched. -/
theorem c7_no_hyphen_keeps_region :
    canonicalizeVoice "cy-GB-NiaNeural" =
      "Microsoft Server Speech Text to Speech Voice (cy-GB, NiaNeural)" ∧
    canonicalizeVoice "fil-PH-AngeloNeural" =
      "Microsoft Server Speech Text to Speech Voice (fil-PH, AngeloNeural)" ∧
    (∀ cs lang region name, shortFormGroups cs = some (lang, region, name) →
      name.contains '-' = false →
      canonVoice cs = assembleVoice lang region name) := by
  refine ⟨rfl, rfl, ?_⟩
  intro cs lang region name h hc
  rw [canonVoice_of_groups cs lang region name h, hc]
  simp

/-- Witness for C7, instantiating the general no-hyphen statement at the
short form "de-AT-IngridNeural". -/
theorem c7_no_hyphen_keeps_region_witness :
    canonVoice "de-AT-IngridNeural".data =
      assembleVoice "de".data "AT".data "IngridNeural".data :=
  c7_no_hyphen_keeps_region.2.2 "de-AT-IngridNeural".data "de".data "AT".data
    "IngridNeural".data rfl rfl

/-- C8: for every string matching the short-form voice pattern, applying
the canonicalizer twice yields the same result as applying it once. -/
theorem c8_canonicalize_idempotent (s : String)
    (h : (shortFormGroups s.data).isSome = true) :
    canonicalizeVoice (canonicalizeVoice s) = canonicalizeVoice s := by
  obtain ⟨⟨lang, region, name⟩, hm⟩ := Option.isSome_iff_exists.mp h
  show (⟨canonVoice (canonVoice s.data)⟩ : String) = ⟨canonVoice s.data⟩
  congr 1
  rw [canonVoice_of_groups s.data lang region name hm]
  by_cases hc : name.contains '-' = true
  · rw [if_pos hc]
    exact canonVoice_assemble _ _ _
  · rw [if_neg hc]
    exact canonVoice_assemble _ _ _

/-- Witness for C8 at the short form "cy-GB-NiaNeural". -/
theorem c8_canonicalize_idempotent_witness :
    (shortFormGroups "cy-GB-NiaNeural".data).isSome = true ∧
    canonicalizeVoice (canonicalizeVoice "cy-GB-NiaNeural") =
      canonicalizeVoice "cy-GB-NiaNeural" :=
  ⟨rfl, c8_canonicalize_idempotent "cy-GB-NiaNeural" rfl⟩

/-- C9: a voice string that does not match the short-form pattern is left
completely unchanged by the canonicalization step. -/
theorem c9_no_match_passthrough (s : String)
    (h : shortFormGroups s.data = Option.none) :
    canonicalizeVoice s = s := by
  show (⟨canonVoice s.data⟩ : String) = s
  unfold canonVoice
  rw [h]

/-- Witness for C9 at an already-canonical input, which the short-form
pattern does not match. -/
theorem c9_no_match_passthrough_witness :
    shortFormGroups "Microsoft Server Speech Text to Speech Voice (en-US, AriaNeural)".data =
      Option.none ∧
    canonicalizeVoice "Microsoft Server Speech Text to Speech Voice (en-US, AriaNeural)" =
      "Microsoft Server Speech Text to Speech Voice (en-US, AriaNeural)" :=
  ⟨rfl, c9_no_match_passthrough "Microsoft Server Speech Text to Speech Voice (en-US, AriaNeural)" rfl⟩

/-- C10: for each of the four fields, validating the empty string fails —
the empty string matches none of the four patterns, and the validator
reports a pattern mismatch naming the field and the empty value. -/
theorem c10_empty_string_always_fails :
    voicePatternMatches "".data = false ∧ ratePatternMatches "".data = false ∧
    volumePatternMatches "".data = false ∧ pitchPatternMatches "".data = false ∧
    validate_string_param "voice" (PyVal.str "") FieldPat.voiceFull =
      Except.error (TTSError.patternMismatch "voice" "") ∧
    validate_string_param "rate" (PyVal.str "") FieldPat.signedPercent =
      Except.error (TTSError.patternMismatch "rate" "") ∧
    validate_string_param "volume" (PyVal.str "") FieldPat.signedPercent =
      Except.error (TTSError.patternMismatch "volume" "") ∧
    validate_string_param "pitch" (PyVal.str "") FieldPat.signedHz =
      Except.error (TTSError.patternMismatch "pitch" "") :=
  ⟨rfl, rfl, rfl, rfl, rfl, rfl, rfl, rfl⟩

/-- The embedded `re.match` test of a signed-number pattern agrees with the
entire-string form evaluated on the text consumed up to the `$` anchor. -/
theorem signedNumberMatches_eq_spec (suffix cs : List Char) :
    signedNumberMatches suffix cs = specEntireSigned suffix (dollarCore cs) := by
  unfold signedNumberMatches
  generalize dollarCore cs = core
  cases core with
  | nil => rfl
  | cons c rest =>
    unfold specEntireSigned
    rw [Bool.eq_iff_iff]
    simp only [Bool.and_eq_true, beq_iff_eq, decide_eq_true_eq,
      List.isSuffixOf_iff_suffix, List.suffix_iff_eq_drop]
    constructor
    · rintro ⟨⟨⟨h1, h2⟩, h3⟩, h4⟩
      exact ⟨⟨⟨h1, h3⟩, h4⟩, h2.symm⟩
    · rintro ⟨⟨⟨h1, h3⟩, h4⟩, h2⟩
      exact ⟨⟨⟨h1, h2.symm⟩, h3⟩, h4⟩

/-- A string ending in a newline is never entirely of the sign-digits-suffix
form when the suffix ends in a character other than the newline. -/
theorem specEntireSigned_last_newline (suffix : List Char) (d : Char)
    (hs : suffix.getLast? = some d) (hd : d ≠ '\n') (cs : List Char)
    (hcs : cs.getLast? = some '\n') :
    specEntireSigned suffix cs = false := by
  cases cs with
  | nil => rfl
  | cons c rest =>
    cases hb : specEntireSigned suffix (c :: rest) with
    | false => rfl
    | true =>
      exfalso
      unfold specEntireSigned at hb
      simp only [Bool.and_eq_true, beq_iff_eq, decide_eq_true_eq] at hb
      obtain ⟨⟨⟨h1, h2⟩, h3⟩, h4⟩ := hb
      have hsplit : c :: rest =
          (c :: rest.take (rest.length - suffix.length)) ++ suffix := by
        rw [List.cons_append]
        congr 1
        conv_lhs => rw [← List.take_append_drop (rest.length - suffix.length) rest]
        rw [h4]
      have hsne : suffix ≠ [] := by
        intro he
        rw [he] at hs
        simp at hs
      have hlast : (c :: rest).getLast? = suffix.getLast? := by
        rw [hsplit]
        exact List.getLast?_append_of_ne_nil _ hsne
      rw [hcs, hs] at hlast
      exact hd (Option.some.inj hlast).symm

/-- The embedded `re.match` test of a signed-number pattern accepts exactly
the strings that are entirely sign-digits-suffix, or become so after
removing a single trailing newline. -/
theorem signed_amended (suffix : List Char) (d : Char) (hs : suffix.getLast? = some d)
    (hd : d ≠ '\n') (cs : List Char) :
    signedNumberMatches suffix cs =
      (specEntireSigned suffix cs ||
        ((cs.getLast? == some '\n') && specEntireSigned suffix cs.dropLast)) := by
  rw [signedNumberMatches_eq_spec]
  unfold dollarCore
  by_cases h : cs.getLast? = some '\n'
  · rw [if_pos h, specEntireSigned_last_newline suffix d hs hd cs h]
    simp [h]
  · rw [if_neg h]
    have hbe : (cs.getLast? == some '\n') = false := by
      simpa using h
    rw [hbe]
    simp

/-- C5 counterexample: the rate pattern accepts the string made of "+10%"
followed by a newline — Python's `$` also matches just before a single
trailing newline — although that entire string is not of the
sign-digits-percent form, so acceptance is not equivalent to the entire
string having the claimed shape. -/
theorem c5_trailing_newline_accepted :
    ratePatternMatches "+10%\n".data = true ∧
    specEntireSigned "%".data "+10%\n".data = false ∧
    validate_string_param "rate" (PyVal.str "+10%\n") FieldPat.signedPercent =
      Except.ok "+10%\n" :=
  ⟨rfl, rfl, rfl⟩

/-- C5 amended: a string is accepted by the rate and volume pattern exactly
when the entire string — or the entire string minus a single trailing
newline — is a sign, one or more digits, and a percent sign; a string is
accepted by the pitch pattern exactly when the same holds with the Hz
suffix; and the claim's examples behave as stated ("+10%" valid; "10%",
"+10", "-5.5%" invalid; "+0Hz" valid; "0Hz", "+0hz" invalid). -/
theorem c5_signed_patterns_characterized :
    (∀ cs, ratePatternMatches cs =
      (specEntireSigned "%".data cs ||
        ((cs.getLast? == some '\n') && specEntireSigned "%".data cs.dropLast))) ∧
    (∀ cs, volumePatternMatches cs =
      (specEntireSigned "%".data cs ||
        ((cs.getLast? == some '\n') && specEntireSigned "%".data cs.dropLast))) ∧
    (∀ cs, pitchPatternMatches cs =
      (specEntireSigned "Hz".data cs ||
        ((cs.getLast? == some '\n') && specEntireSigned "Hz".data cs.dropLast))) ∧
    ratePatternMatches "+10%".data = true ∧
    ratePatternMatches "10%".data = false ∧
    ratePatternMatches "+10".data = false ∧
    ratePatternMatches "-5.5%".data = false ∧
    pitchPatternMatches "+0Hz".data = true ∧
    pitchPatternMatches "0Hz".data = false ∧
    pitchPatternMatches "+0hz".data = false :=
  ⟨fun cs => signed_amended "%".data '%' rfl (by decide) cs,
   fun cs => signed_amended "%".data '%' rfl (by decide) cs,
   fun cs => signed_amended "Hz".data 'z' rfl (by decide) cs,
   rfl, rfl, rfl, rfl, rfl, rfl, rfl⟩

end EdgeTTS
